import Mathlib

/-!
Shallow embedding of the `geosoft-as/timeseries-io` repository
(files `src/python/src/Signal.py` and `src/python/src/ValueType.py`)
together with theorems settling the specification claims.

Python's dynamic values are modelled by a small closed universe `PyVal`
covering every kind of value that appears in the two modules: strings,
type objects (the five primitive kinds plus arbitrary other types),
integers, `None`, and an opaque catch-all.  Fallible Python code
(`Signal.__init__`, which can raise `NameError` because `Signal.py`
never imports `datetime`) is embedded as `Except PyError _`.
-/

/-- The primitive type objects a Python program may pass around:
`float`, `int`, `str`, `bool`, `datetime.date`, or any other type
(identified by its name). -/
inductive PyType where
  | float
  | int
  | str
  | bool
  | date
  | other (name : String)
  deriving DecidableEq, Repr

/-- A Python runtime value, as far as the two modules observe values:
a string, a type object, an integer, `None`, or some other object. -/
inductive PyVal where
  | str (s : String)
  | typ (t : PyType)
  | intVal (n : Int)
  | nonePy
  | other (tag : String)
  deriving DecidableEq, Repr

/-- `isinstance(value, str)` from Python, on the `PyVal` universe. -/
def PyVal.isinstanceStr : PyVal → Bool
  | .str _ => true
  | _ => false

/-- Errors the embedded code can raise.  `Signal.__init__` evaluates the
name `datetime`, which `Signal.py` never imports, raising `NameError`. -/
inductive PyError where
  | nameError (missing : String)
  deriving DecidableEq, Repr

/-- `ValueTypeItem` from `ValueType.py`: the pair of a symbolic name and
a primitive type object stored by `__init__`. -/
structure ValueTypeItem where
  _name : String
  _value_type : PyType
  deriving DecidableEq, Repr

/-- `ValueTypeItem.get_name`: returns `self._name`. -/
def ValueTypeItem.get_name (i : ValueTypeItem) : String :=
  i._name

/-- `ValueTypeItem.get_value_type`: returns `self._value_type`. -/
def ValueTypeItem.get_value_type (i : ValueTypeItem) : PyType :=
  i._value_type

/-- `ValueTypeItem.__str__`: returns `self._name`. -/
def ValueTypeItem.__str__ (i : ValueTypeItem) : String :=
  i._name

/-- The enumeration `ValueType` from `ValueType.py`: five members. -/
inductive ValueType where
  | FLOAT
  | INTEGER
  | STRING
  | BOOLEAN
  | DATETIME
  deriving DecidableEq, Repr

/-- The `ValueTypeItem` payload of each `ValueType` member, exactly as
assigned in the enum body of `ValueType.py`. -/
def ValueType.value : ValueType → ValueTypeItem
  | .FLOAT => ⟨"float", .float⟩
  | .INTEGER => ⟨"integer", .int⟩
  | .STRING => ⟨"string", .str⟩
  | .BOOLEAN => ⟨"boolean", .bool⟩
  | .DATETIME => ⟨"datetime", .date⟩

/-- Iteration order of `for item in ValueType`: declaration order. -/
def ValueType.members : List ValueType :=
  [.FLOAT, .INTEGER, .STRING, .BOOLEAN, .DATETIME]

/-- The tuple `(int, float, bool, str, datetime.date)` tested by
`value in (...)` inside `ValueType.get`; `ValueType.py` does bind the
name `datetime` at its top, so this tuple evaluates fine. -/
def typeTupleGet : List PyVal :=
  [.typ .int, .typ .float, .typ .bool, .typ .str, .typ .date]

/-- The `for` loop inside `ValueType.get`: scan the members in order,
returning the first whose item name equals a string input, or whose
item primitive type equals a recognized type-object input. -/
def ValueType.getLoop : List ValueType → PyVal → Option ValueType
  | [], _ => none
  | item :: rest, value =>
    if value.isinstanceStr ∧ PyVal.str item.value.get_name = value then some item
    else if value ∈ typeTupleGet ∧ PyVal.typ item.value.get_value_type = value then some item
    else ValueType.getLoop rest value

/-- `ValueType.get(value)` from `ValueType.py`: loop over the five
members; return `None` when no member matches. -/
def ValueType.get (value : PyVal) : Option ValueType :=
  ValueType.getLoop ValueType.members value

/-- The attribute record a fully constructed `Signal` holds
(`_name`, `_description`, `_quantity`, `_unit`, `_value_type`,
`_n_dimensions`, `_size`), all dynamically typed. -/
structure Signal where
  _name : PyVal
  _description : PyVal
  _quantity : PyVal
  _unit : PyVal
  _value_type : PyVal
  _n_dimensions : PyVal
  _size : PyVal
  deriving DecidableEq, Repr

/-- `Signal.__init__` from `Signal.py`.  It stores the six arguments,
then derives `_size`: `value_type in (float, int)` gives 8; otherwise
the `elif value_type == datetime.date:` line evaluates the name
`datetime`, which `Signal.py` never imports, so the constructor raises
`NameError("datetime")` and the `date`/`bool`/else branches are
unreachable. -/
def Signal.init (name description quantity unit value_type n_dimensions : PyVal) :
    Except PyError Signal :=
  if value_type = .typ .float ∨ value_type = .typ .int then
    .ok ⟨name, description, quantity, unit, value_type, n_dimensions, .intVal 8⟩
  else
    .error (.nameError "datetime")

/-- `Signal.get_name`: returns `self._name`. -/
def Signal.get_name (s : Signal) : PyVal :=
  s._name

/-- `Signal.get_quantity`: returns `self._quantity`. -/
def Signal.get_quantity (s : Signal) : PyVal :=
  s._quantity

/-- `Signal.get_unit`: returns `self._unit`. -/
def Signal.get_unit (s : Signal) : PyVal :=
  s._unit

/-- `Signal.get_value_type`: returns `self._value_type`. -/
def Signal.get_value_type (s : Signal) : PyVal :=
  s._value_type

/-- `Signal.get_n_dimensions`: returns `self._n_dimensions`. -/
def Signal.get_n_dimensions (s : Signal) : PyVal :=
  s._n_dimensions

/-- `Signal.get_size`: returns `self._size`. -/
def Signal.get_size (s : Signal) : PyVal :=
  s._size

/-- `Signal.set_size(size)`: overwrite `self._size`, nothing else. -/
def Signal.set_size (s : Signal) (size : PyVal) : Signal :=
  { s with _size := size }

/-- The methods defined in the `Signal` class body of `Signal.py`, in
source order.  Note there is no `get_description`. -/
def Signal.methods : List String :=
  ["__init__", "get_name", "get_quantity", "get_unit", "get_value_type",
   "get_n_dimensions", "get_size", "set_size", "add_value"]

/-- The module-level demonstration line of `Signal.py`:
`s = Signal("lat", "test", "test", "m", float, 1)`. -/
def demoSignal : Except PyError Signal :=
  Signal.init (.str "lat") (.str "test") (.str "test") (.str "m") (.typ .float) (.intVal 1)

/-! ## Claim theorems -/

/-- C1: the claimed size-derivation rule (float/int → 8, date → 30,
bool → 1, else → 0) fails on the code: constructing a `Signal` with the
boolean primitive raises `NameError` (the name `datetime` is unbound in
`Signal.py`) instead of yielding `size = 1`. -/
theorem signal_bool_size_raises_name_error (n d q u nd : PyVal) :
    Signal.init n d q u (.typ .bool) nd = .error (.nameError "datetime") := by
  simp [Signal.init]

/-- C2: `Signal` construction can fail: with value type `str` (or any
value type other than `float`/`int`) the constructor raises `NameError`
instead of silently yielding `size = 0`. -/
theorem signal_init_fails_on_str_type (n d q u nd : PyVal) :
    Signal.init n d q u (.typ .str) nd = .error (.nameError "datetime") := by
  simp [Signal.init]

/-- C3: at the level of the constructor and `get_name`, the demo line
`Signal("lat", "test", "test", "m", float, 1)` succeeds and reading the
name gives `"lat"` (value type `float` takes the first branch, so the
unbound `datetime` is never evaluated).  The module-level demo itself
never runs, because `add_value` has an empty body and the file does not
parse. -/
theorem demo_signal_name_is_lat :
    demoSignal =
      .ok ⟨.str "lat", .str "test", .str "test", .str "m", .typ .float, .intVal 1, .intVal 8⟩
    ∧ (Signal.mk (.str "lat") (.str "test") (.str "test") (.str "m") (.typ .float)
        (.intVal 1) (.intVal 8)).get_name = .str "lat" := by
  constructor
  · rfl
  · rfl

/-- C4: round-trip lookup: for each of the five `ValueType` members,
`get` on the member's item name returns that member, and `get` on the
member's item primitive type returns that member. -/
theorem valueType_get_roundtrip (m : ValueType) :
    ValueType.get (.str m.value.get_name) = some m
    ∧ ValueType.get (.typ m.value.get_value_type) = some m := by
  cases m <;> exact ⟨rfl, rfl⟩

/-- C5: `ValueType.get` is total (it is a Lean function into `Option`,
so it never raises), and every input that is neither one of the five
member-name strings nor one of the five recognized primitive type
objects yields `none`. -/
theorem valueType_get_none_when_no_match (v : PyVal)
    (hs : ∀ s ∈ (["float", "integer", "string", "boolean", "datetime"] : List String),
      v ≠ PyVal.str s)
    (ht : ∀ t ∈ ([.int, .float, .bool, .str, .date] : List PyType), v ≠ PyVal.typ t) :
    ValueType.get v = none := by
  cases v with
  | str s =>
      have h1 : "float" ≠ s := fun h => hs "float" (by simp) (by rw [h])
      have h2 : "integer" ≠ s := fun h => hs "integer" (by simp) (by rw [h])
      have h3 : "string" ≠ s := fun h => hs "string" (by simp) (by rw [h])
      have h4 : "boolean" ≠ s := fun h => hs "boolean" (by rw [h]; simp) (by rw [h])
      have h5 : "datetime" ≠ s := fun h => hs "datetime" (by rw [h]; simp) (by rw [h])
      simp [ValueType.get, ValueType.getLoop, ValueType.members, ValueType.value,
        ValueTypeItem.get_name, PyVal.isinstanceStr, typeTupleGet, h1, h2, h3, h4, h5]
  | typ t =>
      have h1 : PyType.int ≠ t := fun h => ht .int (by simp) (by rw [h])
      have h2 : PyType.float ≠ t := fun h => ht .float (by simp) (by rw [h])
      have h3 : PyType.bool ≠ t := fun h => ht .bool (by simp) (by rw [h])
      have h4 : PyType.str ≠ t := fun h => ht .str (by rw [h]; simp) (by rw [h])
      have h5 : PyType.date ≠ t := fun h => ht .date (by rw [h]; simp) (by rw [h])
      simp [ValueType.get, ValueType.getLoop, ValueType.members, ValueType.value,
        ValueTypeItem.get_value_type, PyVal.isinstanceStr, typeTupleGet, h1, h2, h3, h4, h5]
  | intVal k =>
      simp [ValueType.get, ValueType.getLoop, ValueType.members, PyVal.isinstanceStr,
        typeTupleGet]
  | nonePy =>
      simp [ValueType.get, ValueType.getLoop, ValueType.members, PyVal.isinstanceStr,
        typeTupleGet]
  | other tag =>
      simp [ValueType.get, ValueType.getLoop, ValueType.members, PyVal.isinstanceStr,
        typeTupleGet]

/-- C5 witness: `get` on the string `"xyz"` returns `none`. -/
theorem valueType_get_none_when_no_match_witness :
    ValueType.get (.str "xyz") = none :=
  valueType_get_none_when_no_match (.str "xyz") (by decide) (by decide)

/-- C6 counterexample: the `Signal` class defines no read accessor for
the `description` attribute, so it does not expose an accessor for each
of its seven attributes. -/
theorem signal_no_description_accessor :
    "get_description" ∉ Signal.methods := by
  decide

/-- C6 (amended): `Signal` exposes read accessors for six of its seven
attributes (all but `description`), and on every `Signal` the
constructor produces, each accessor returns the value fixed at
construction — with `size` derived as 8, the only derivation the
constructor ever completes. -/
theorem signal_accessors_return_constructed_values :
    ("get_name" ∈ Signal.methods ∧ "get_quantity" ∈ Signal.methods ∧
     "get_unit" ∈ Signal.methods ∧ "get_value_type" ∈ Signal.methods ∧
     "get_n_dimensions" ∈ Signal.methods ∧ "get_size" ∈ Signal.methods ∧
     "get_description" ∉ Signal.methods)
    ∧ ∀ n d q u vt nd s, Signal.init n d q u vt nd = .ok s →
        s.get_name = n ∧ s.get_quantity = q ∧ s.get_unit = u ∧
        s.get_value_type = vt ∧ s.get_n_dimensions = nd ∧
        s._description = d ∧ s.get_size = .intVal 8 := by
  refine ⟨by decide, fun n d q u vt nd s h => ?_⟩
  rw [Signal.init] at h
  by_cases hvt : vt = .typ .float ∨ vt = .typ .int
  · rw [if_pos hvt] at h
    cases h
    exact ⟨rfl, rfl, rfl, rfl, rfl, rfl, rfl⟩
  · rw [if_neg hvt] at h
    cases h

/-- C6 witness: instantiating at the demo construction, whose result is
the concrete record, `get_name` returns `"lat"` and `get_size` 8. -/
theorem signal_accessors_return_constructed_values_witness :
    (Signal.mk (.str "lat") (.str "test") (.str "test") (.str "m") (.typ .float)
      (.intVal 1) (.intVal 8)).get_name = .str "lat"
    ∧ (Signal.mk (.str "lat") (.str "test") (.str "test") (.str "m") (.typ .float)
      (.intVal 1) (.intVal 8)).get_size = .intVal 8 := by
  have h := (signal_accessors_return_constructed_values).2
    (.str "lat") (.str "test") (.str "test") (.str "m") (.typ .float) (.intVal 1)
    (Signal.mk (.str "lat") (.str "test") (.str "test") (.str "m") (.typ .float)
      (.intVal 1) (.intVal 8)) rfl
  exact ⟨h.1, h.2.2.2.2.2.2⟩

/-- C7: after `set_size(v)`, `get_size` returns `v` (overriding any
derived value), and every other attribute — name, description,
quantity, unit, value type, dimensionality — is unchanged. -/
theorem set_size_get_size_frame (s : Signal) (v : PyVal) :
    (s.set_size v).get_size = v ∧
    (s.set_size v).get_name = s.get_name ∧
    (s.set_size v)._description = s._description ∧
    (s.set_size v).get_quantity = s.get_quantity ∧
    (s.set_size v).get_unit = s.get_unit ∧
    (s.set_size v).get_value_type = s.get_value_type ∧
    (s.set_size v).get_n_dimensions = s.get_n_dimensions :=
  ⟨rfl, rfl, rfl, rfl, rfl, rfl, rfl⟩

/-- C8: for every argument tuple, when the value type is neither the
`float` nor the `int` type object, `Signal.__init__` raises
`NameError("datetime")` (the comparison against `datetime.date` reads a
name `Signal.py` never imports); with `float` or `int` the constructor
completes and the signal's size is 8. -/
theorem signal_init_name_error_characterization
    (n d q u vt nd : PyVal) :
    (vt ≠ .typ .float → vt ≠ .typ .int →
      Signal.init n d q u vt nd = .error (.nameError "datetime"))
    ∧ ∀ t : PyType, t = .float ∨ t = .int →
        ∃ s, Signal.init n d q u (.typ t) nd = .ok s ∧ s.get_size = .intVal 8 := by
  constructor
  · intro h1 h2
    rw [Signal.init, if_neg]
    rintro (h | h) <;> [exact h1 h; exact h2 h]
  · rintro t (rfl | rfl) <;>
      exact ⟨⟨n, d, q, u, _, nd, .intVal 8⟩, by rw [Signal.init, if_pos (by simp)], rfl⟩

/-- C8 witness: at value type `bool` the constructor raises
`NameError("datetime")`, and at value type `float` it completes with
size 8. -/
theorem signal_init_name_error_characterization_witness :
    Signal.init (.str "x") (.str "d") (.str "q") (.str "u") (.typ .bool) (.intVal 1)
      = .error (.nameError "datetime")
    ∧ ∃ s, Signal.init (.str "x") (.str "d") (.str "q") (.str "u") (.typ .float) (.intVal 1)
        = .ok s ∧ s.get_size = .intVal 8 :=
  ⟨(signal_init_name_error_characterization (.str "x") (.str "d") (.str "q") (.str "u")
      (.typ .bool) (.intVal 1)).1 (by decide) (by decide),
   (signal_init_name_error_characterization (.str "x") (.str "d") (.str "q") (.str "u")
      (.typ .float) (.intVal 1)).2 .float (Or.inl rfl)⟩

/-- C9: a `ValueTypeItem` built from any name and primitive type
returns exactly those via `get_name` and `get_value_type`, its display
string equals the name, and construction is total (a Lean function, it
always succeeds); no operation returns a modified pair. -/
theorem valueTypeItem_accessors (name : String) (t : PyType) :
    (ValueTypeItem.mk name t).get_name = name
    ∧ (ValueTypeItem.mk name t).get_value_type = t
    ∧ (ValueTypeItem.mk name t).__str__ = name :=
  ⟨rfl, rfl, rfl⟩

/-- C10: `set_size` validates nothing and re-derives nothing: for every
value `v` of any kind — negative, zero, or non-numeric — it succeeds,
`get_size` then returns exactly `v`, the stored value type is untouched,
and the resulting size is independent of the value type (no
recomputation from `valueType` ever happens). -/
theorem set_size_no_validation_no_rederivation (s s2 : Signal) (v : PyVal) :
    (s.set_size v).get_size = v
    ∧ (s.set_size v)._value_type = s._value_type
    ∧ (s.set_size v)._size = (s2.set_size v)._size
    ∧ (s.set_size (.intVal (-5))).get_size = .intVal (-5)
    ∧ (s.set_size (.intVal 0)).get_size = .intVal 0
    ∧ (s.set_size (.str "abc")).get_size = .str "abc"
    ∧ (s.set_size .nonePy).get_size = .nonePy :=
  ⟨rfl, rfl, rfl, rfl, rfl, rfl, rfl⟩
